import Mathlib

/-!
Verification development for the "Heartbeat Devil" platformer core
(`main.py`) and its UDP bpm receiver (`bpm_udp.py`).

Modelling conventions:
* Python floats are modelled as rationals (`ℚ`); the spec and claims speak
  about exact real arithmetic, and all constants in the source are decimal.
* `pygame.Rect` stores integer coordinates; rect fields are `ℤ`.
* Python `int(x)` truncates toward zero (`pyInt`), Python 3 `round(x)`
  rounds half to even (`pyRound`), Python float `%` follows the sign of the
  divisor (`fmod`).
* Randomness (`random.random`, `random.uniform`) is passed in as explicit
  oracle parameters, and the square-root inside `Vector2.normalize` used by
  homing projectiles is passed in as an oracle steering function.
* Strings from the wire (`bpm_udp.py`) are modelled as `List Char`
  restricted to ASCII: `str.isdigit` is modelled as ASCII `'0'..'9'` and
  `str.strip` strips ASCII whitespace.
-/

namespace HD

/-- `clamp(v, a, b)` from main.py: `max(a, min(b, v))`. -/

def clamp (v a b : ℚ) : ℚ := max a (min b v)

/-- Python `int()` applied to a float: truncation toward zero. -/

def pyInt (q : ℚ) : ℤ := if 0 ≤ q then ⌊q⌋ else ⌈q⌉

/-- Python 3 `round()` to an integer: round half to even. -/

def pyRound (q : ℚ) : ℤ :=
  let f := ⌊q⌋
  let r := q - (f : ℚ)
  if r < 1/2 then f
  else if 1/2 < r then f + 1
  else if f % 2 = 0 then f else f + 1

/-- Python float `%` (sign of the divisor); only used with positive divisors. -/

def fmod (a b : ℚ) : ℚ := a - b * (⌊a / b⌋ : ℤ)

/-! ## Gameplay constants (main.py, CONFIG section) -/

def WIDTH : ℤ := 1280

def HEIGHT : ℤ := 720

def GRAVITY : ℚ := 2400

def BASE_MOVE_SPEED : ℚ := 380

def BASE_JUMP_VEL : ℚ := -850

def STRESS_DELTA : ℤ := 10

def PANIC_DELTA : ℤ := 20

def STRESS_SPEED_MULT : ℚ := 78/100

def STRESS_JUMP_MULT : ℚ := 86/100

def FLASH_DURATION : ℚ := 20

def FLASH_SPEED_MULT : ℚ := 16/10

def INPUT_SWAP_DURATION : ℚ := 3

def JUMP_SWAP_DURATION : ℚ := 3

def PLAYER_SIZE : ℤ := 40

def RESPAWN_I_FRAMES : ℚ := 8/10

/-! ## HeartRateController (main.py lines 170-214) -/

structure HeartRateController where
  baseline : ℤ
  current : ℚ
  target : ℚ
  timer : ℚ
  mode_override : Option String
deriving DecidableEq, Repr

namespace HeartRateController

/-- `HeartRateController.update(dt, keys)`.  The manual bpm tweak keys are
`hrUp`/`hrDown`; `newTarget` is the oracle for the value the drift redraw
(`random.uniform` branch at lines 189-192) would produce when the
one-second timer rolls over. -/

def update (s : HeartRateController) (dt : ℚ) (hrUp hrDown : Bool)
    (newTarget : ℚ) : HeartRateController :=
  let c1 := if hrUp then s.current + 60 * dt else s.current
  let c2 := if hrDown then c1 - 60 * dt else c1
  let tm := s.timer + dt
  let p := if tm > 1 then ((0 : ℚ), newTarget) else (tm, s.target)
  let c3 := c2 + (p.2 - c2) * min 1 (dt * 2)
  { s with current := clamp c3 45 190, target := p.2, timer := p.1 }

/-- `bpm()`: rounded integer bpm. -/

def bpm (s : HeartRateController) : ℤ := pyRound s.current

/-- `mode()` (main.py lines 200-214). -/

def mode (s : HeartRateController) : String :=
  if s.mode_override = some ("panic") then "panic"
  else if s.mode_override = some ("stress") then "stress"
  else
    let b := s.bpm
    if b > s.baseline + PANIC_DELTA then "panic"
    else if b ≥ s.baseline + STRESS_DELTA then "stress"
    else "normal"

end HeartRateController

/-- `pygame.Rect`: integer position and size; `left = x`, `right = x + w`,
`top = y`, `bottom = y + h`. -/

structure Rect where
  x : ℤ
  y : ℤ
  w : ℤ
  h : ℤ
deriving DecidableEq, Repr

/-- `pygame.Rect.colliderect`: strict overlap on both axes (touching edges
and zero-sized rects do not collide). -/

def Rect.collide (a b : Rect) : Bool :=
  decide (a.x < b.x + b.w) && decide (a.x + a.w > b.x) &&
  decide (a.y < b.y + b.h) && decide (a.y + a.h > b.y)

/-- The boolean key states consumed by `Player.update`
(left/right/jump/down/flash, after the `key_any` tuples are collapsed). -/

structure Keys where
  left : Bool
  right : Bool
  jump : Bool
  down : Bool
  flash : Bool
deriving DecidableEq, Repr

/-- Zero net input: no key held this tick. -/

def noKeys : Keys :=
  { left := false, right := false, jump := false, down := false, flash := false }

/-! ## Player (main.py lines 858-998) -/

structure Player where
  pos_x : ℚ
  pos_y : ℚ
  rect : Rect
  vx : ℚ
  vy : ℚ
  on_ground : Bool
  facing : ℤ
  spawn_x : ℚ
  spawn_y : ℚ
  coyote : ℚ
  jump_buf : ℚ
  gravity_flipped : Bool
  gravity_flip_timer : ℚ
  swap_lr : Bool
  swap_lr_timer : ℚ
  swap_jump : Bool
  swap_jump_timer : ℚ
  flash_charges : ℤ
  flash_active : Bool
  flash_timer : ℚ
  i_frames : ℚ
deriving DecidableEq, Repr

/-- The recurring timer pattern of `Player.update`: while the flag is set,
decrement the timer by `dt` and clear the flag once it reaches `≤ 0`. -/

def tickFlag (flag : Bool) (timer dt : ℚ) : Bool × ℚ :=
  if flag then
    let t := timer - dt
    (if t ≤ 0 then false else true, t)
  else (flag, timer)

/-- Speed multiplier block of `Player.update` (main.py lines 945-951):
starts at 1.0, ×`STRESS_SPEED_MULT` in mode "stress",
×`FLASH_SPEED_MULT` while flash is active. -/

def speedMult (mode : String) (flashActive : Bool) : ℚ :=
  let s : ℚ := 1
  let s := if mode = "stress" then s * STRESS_SPEED_MULT else s
  if flashActive then s * FLASH_SPEED_MULT else s

/-- Jump multiplier block of `Player.update`: 1.0, ×`STRESS_JUMP_MULT`
in mode "stress". -/

def jumpMult (mode : String) : ℚ :=
  if mode = "stress" then 1 * STRESS_JUMP_MULT else 1

/-- The jump decision of `Player.update` (main.py line 982):
`self.jump_buf > 0 and self.coyote > 0` at evaluation time. -/

def jumpFires (jb coy : ℚ) : Bool := decide (jb > 0) && decide (coy > 0)

/-- `Player.respawn` (main.py lines 893-912). -/

def Player.respawn (p : Player) : Player :=
  { p with
    pos_x := p.spawn_x, pos_y := p.spawn_y,
    vx := 0, vy := 0, on_ground := false,
    coyote := 0, jump_buf := 0,
    gravity_flipped := false, gravity_flip_timer := 0,
    swap_lr := false, swap_lr_timer := 0,
    swap_jump := false, swap_jump_timer := 0,
    flash_active := false, flash_timer := 0,
    i_frames := RESPAWN_I_FRAMES,
    rect := { x := pyInt p.spawn_x, y := pyInt p.spawn_y,
              w := p.rect.w, h := p.rect.h } }

/-- `Player.update(dt, keys, mode)` (main.py lines 914-998).  The
visual-only animator update is omitted; everything else follows the source
statement by statement. -/

def Player.update (p : Player) (dt : ℚ) (k : Keys) (mode : String) : Player :=
  let iF := if p.i_frames > 0 then p.i_frames - dt else p.i_frames
  let gf := tickFlag p.gravity_flipped p.gravity_flip_timer dt
  let sl := tickFlag p.swap_lr p.swap_lr_timer dt
  let sj := tickFlag p.swap_jump p.swap_jump_timer dt
  let fl := tickFlag p.flash_active p.flash_timer dt
  let fq : ℤ × Bool × ℚ :=
    if k.flash && !fl.1 && decide (p.flash_charges > 0) then
      (p.flash_charges - 1, true, FLASH_DURATION)
    else (p.flash_charges, fl.1, fl.2)
  let sm := speedMult mode fq.2.1
  let jm := jumpMult mode
  let move0 : ℤ := (if k.left then -1 else 0) + (if k.right then 1 else 0)
  let move := if sl.1 then -move0 else move0
  let vx := (move : ℚ) * BASE_MOVE_SPEED * sm
  let facing := if move ≠ 0 then (if move > 0 then (1 : ℤ) else -1) else p.facing
  let jump_pressed := if sj.1 then k.down else k.jump
  let jb := if jump_pressed then (1/10 : ℚ) else max 0 (p.jump_buf - dt)
  let coy := if p.on_ground then (1/10 : ℚ) else max 0 (p.coyote - dt)
  let jq : ℚ × ℚ × ℚ × Bool :=
    if jumpFires jb coy then
      let v := BASE_JUMP_VEL * jm
      ((if gf.1 then -v else v), 0, 0, false)
    else (p.vy, jb, coy, p.on_ground)
  let g := if gf.1 then -GRAVITY else GRAVITY
  let vy2 := if jq.2.2.2 && !gf.1 then (0 : ℚ) else jq.1 + g * dt
  { p with
    i_frames := iF,
    gravity_flipped := gf.1, gravity_flip_timer := gf.2,
    swap_lr := sl.1, swap_lr_timer := sl.2,
    swap_jump := sj.1, swap_jump_timer := sj.2,
    flash_charges := fq.1, flash_active := fq.2.1, flash_timer := fq.2.2,
    vx := vx, facing := facing,
    jump_buf := jq.2.1, coyote := jq.2.2.1, on_ground := jq.2.2.2,
    vy := clamp vy2 (-1600) 1600 }

/-- A concrete grounded player used by witnesses. -/

def pGrounded : Player :=
  { pos_x := 80, pos_y := 560, rect := { x := 80, y := 560, w := 40, h := 40 },
    vx := 0, vy := 0, on_ground := true, facing := 1,
    spawn_x := 80, spawn_y := 560, coyote := 1/10, jump_buf := 0,
    gravity_flipped := false, gravity_flip_timer := 0,
    swap_lr := false, swap_lr_timer := 0,
    swap_jump := false, swap_jump_timer := 0,
    flash_charges := 0, flash_active := false, flash_timer := 0,
    i_frames := 0 }

/-- A concrete airborne player (coyote fully decayed) used by witnesses. -/

def pAirborne : Player :=
  { pos_x := 80, pos_y := 300, rect := { x := 80, y := 300, w := 40, h := 40 },
    vx := 0, vy := 100, on_ground := false, facing := 1,
    spawn_x := 80, spawn_y := 560, coyote := 0, jump_buf := 0,
    gravity_flipped := false, gravity_flip_timer := 0,
    swap_lr := false, swap_lr_timer := 0,
    swap_jump := false, swap_jump_timer := 0,
    flash_charges := 0, flash_active := false, flash_timer := 0,
    i_frames := 0 }

/-- The key state with only the jump key held. -/

def jumpOnlyKeys : Keys :=
  { left := false, right := false, jump := true, down := false, flash := false }

/-- The `active` slot of a `Trap`.  Python stores booleans and, for
`rising_pit`, the strings "hold" and "down" in the same field; `toBool`
is Python truthiness (both strings are truthy). -/

inductive TrapActive where
  | on : TrapActive
  | off : TrapActive
  | hold : TrapActive
  | down : TrapActive
deriving DecidableEq, Repr

def TrapActive.toBool : TrapActive → Bool
  | .off => false
  | _ => true

/-- The `Trap` dataclass (main.py lines 294-306). -/

structure Trap where
  rect : Rect
  kind : String
  active : TrapActive
  t : ℚ
  triggered : Bool
  used : Bool
  dir : ℤ
  speed : ℚ
  base_x : ℤ
  base_y : ℤ
  cooldown : ℚ
deriving DecidableEq, Repr

/-- The `Projectile` dataclass (main.py lines 317-324). -/

structure Projectile where
  px : ℚ
  py : ℚ
  vx : ℚ
  vy : ℚ
  radius : ℤ
  active : Bool
  homing : Bool
  ttl : ℚ
deriving DecidableEq, Repr

/-- The parts of `Level` that the simulation core reads and writes. -/

structure Level where
  platforms : List Rect
  traps : List Trap
  projectiles : List Projectile
  world_w : ℤ
  level_time : ℚ
deriving DecidableEq, Repr

/-- One trap's branch of `Level.update` (main.py lines 696-768).  Returns
the updated trap and whether a `spawn_homing` projectile was spawned this
tick (its random offsets are supplied by the caller). -/

def trap_update (world_w : ℤ) (player_rect : Rect) (dt : ℚ) (tr0 : Trap) :
    Trap × Bool :=
  let tr := { tr0 with t := tr0.t + dt }
  if tr.kind = "laser" then
    ({ tr with active :=
        if fmod tr.t (11/10 + 78/100) < 11/10 then .on else .off }, false)
  else if tr.kind = "shifting_wall" then
    let x1 := tr.rect.x + pyInt ((tr.dir : ℚ) * tr.speed * dt)
    let s1 : ℤ × ℤ :=
      if x1 < world_w - 1400 then (world_w - 1400, 1) else (x1, tr.dir)
    let s2 : ℤ × ℤ :=
      if s1.1 > world_w - 1180 then (world_w - 1180, -1) else s1
    ({ tr with rect := { tr.rect with x := s2.1 }, dir := s2.2 }, false)
  else if tr.kind = "collapsing_floor" then
    let a1 := if tr.triggered then TrapActive.off else tr.active
    let c1 := if tr.triggered ∧ tr.cooldown ≤ 0 then (21/10 : ℚ) else tr.cooldown
    if c1 > 0 then
      let c2 := c1 - dt
      if c2 ≤ 0 then
        ({ tr with active := .on, triggered := false, cooldown := c2 }, false)
      else ({ tr with active := a1, cooldown := c2 }, false)
    else ({ tr with active := a1, cooldown := c1 }, false)
  else if tr.kind = "falling_block" then
    let s1 : Rect × TrapActive × ℚ :=
      if tr.triggered && tr.active.toBool then
        let y1 := tr.rect.y + pyInt (820 * dt)
        if y1 > HEIGHT + 250 then ({ tr.rect with y := y1 }, .off, 3/2)
        else ({ tr.rect with y := y1 }, tr.active, tr.cooldown)
      else (tr.rect, tr.active, tr.cooldown)
    if ¬ s1.2.1.toBool then
      let c2 := s1.2.2 - dt
      if c2 ≤ 0 then
        ({ tr with
            rect := { s1.1 with x := tr.base_x, y := tr.base_y },
            active := .on, triggered := false, cooldown := c2 }, false)
      else ({ tr with rect := s1.1, active := s1.2.1, cooldown := c2 }, false)
    else ({ tr with rect := s1.1, active := s1.2.1, cooldown := s1.2.2 }, false)
  else if tr.kind = "hidden_spikes" then
    if tr.active.toBool && decide (tr.cooldown > 0) then
      let c2 := tr.cooldown - dt
      if c2 ≤ 0 then ({ tr with cooldown := c2, active := .off }, false)
      else ({ tr with cooldown := c2 }, false)
    else (tr, false)
  else if tr.kind = "rising_pit" then
    if tr.active = .on then
      let y1 := tr.rect.y - pyInt (920 * dt)
      if y1 ≤ HEIGHT - 230 then
        ({ tr with
            rect := { tr.rect with y := HEIGHT - 230 },
            cooldown := 9/10, active := .hold }, false)
      else ({ tr with rect := { tr.rect with y := y1 } }, false)
    else if tr.active = .hold then
      let c2 := tr.cooldown - dt
      if c2 ≤ 0 then ({ tr with cooldown := c2, active := .down }, false)
      else ({ tr with cooldown := c2 }, false)
    else if tr.active = .down then
      let y1 := tr.rect.y + pyInt (960 * dt)
      if y1 ≥ tr.base_y then
        ({ tr with rect := { tr.rect with y := tr.base_y }, active := .off }, false)
      else ({ tr with rect := { tr.rect with y := y1 } }, false)
    else (tr, false)
  else if tr.kind = "spawn_homing" then
    let c1 := if tr.cooldown > 0 then tr.cooldown - dt else tr.cooldown
    if player_rect.collide tr.rect && decide (c1 ≤ 0) then
      ({ tr with cooldown := 6/5 }, true)
    else ({ tr with cooldown := c1 }, false)
  else (tr, false)

/-- The projectile spawned by a `spawn_homing` trap (main.py lines
766-768); `offY`, `velY` are the `random.uniform(-70,70)` and
`random.uniform(-45,45)` draws. -/

def spawnProjectile (tr : Trap) (offY velY : ℚ) : Projectile :=
  { px := ((tr.rect.x - 18 : ℤ) : ℚ),
    py := ((tr.rect.y + tr.rect.h / 2 : ℤ) : ℚ) + offY,
    vx := 230, vy := velY, radius := 11, active := true, homing := true,
    ttl := 11/2 }

/-- One projectile's step of `Level.update` (main.py lines 771-787).
`steer` is the oracle for the homing block (lines 779-783): it returns the
velocity after the guarded `lerp` toward the player, whose `normalize`
involves a square root and is not rational in general. -/

def projectile_update (steer : Projectile → Rect → ℚ → ℚ × ℚ)
    (world_w : ℤ) (player_rect : Rect) (dt : ℚ) (p : Projectile) :
    Projectile :=
  if ¬ p.active then p
  else
    let ttl := p.ttl - dt
    if ttl ≤ 0 then { p with ttl := ttl, active := false }
    else
      let v := if p.homing then steer p player_rect dt else (p.vx, p.vy)
      let px := p.px + v.1 * dt
      let py := p.py + v.2 * dt
      let act := ¬ (px < -260 ∨ px > (world_w : ℚ) + 260 ∨
        py < -260 ∨ py > (HEIGHT : ℚ) + 260)
      { p with
          vx := v.1, vy := v.2, px := px, py := py, ttl := ttl,
          active := act }

/-- `Level.update(dt, player_rect)` (main.py lines 693-789): advance every
trap, spawn homing projectiles (random draws from `rng`, indexed by trap
position), step all projectiles — newly spawned ones included — and
compact out the dead ones. -/

def level_update (steer : Projectile → Rect → ℚ → ℚ × ℚ)
    (rng : ℕ → ℚ × ℚ) (lv : Level) (dt : ℚ) (player_rect : Rect) : Level :=
  let results := lv.traps.map (fun tr => trap_update lv.world_w player_rect dt tr)
  let traps2 := results.map Prod.fst
  let newProjs := results.enum.filterMap (fun ie =>
    if ie.2.2 then some (spawnProjectile ie.2.1 (rng ie.1).1 (rng ie.1).2)
    else none)
  let projs2 := ((lv.projectiles ++ newProjs).map
    (projectile_update steer lv.world_w player_rect dt)).filter
      (fun p => p.active)
  { lv with
      level_time := lv.level_time + dt, traps := traps2,
      projectiles := projs2 }

/-- `platform_is_active(level, rect)` (main.py lines 1014-1018): the first
`collapsing_floor` trap whose rectangle equals `rect` decides; with no
match the platform is active. -/

def platform_is_active (traps : List Trap) (r : Rect) : Bool :=
  match traps with
  | [] => true
  | tr :: rest =>
    if tr.rect = r ∧ tr.kind = "collapsing_floor" then tr.active.toBool
    else platform_is_active rest r

/-- Iterate `trap_update` over a list of per-tick `dt`s. -/

def runTrap (world_w : ℤ) (player_rect : Rect) (tr : Trap) (ds : List ℚ) :
    Trap :=
  ds.foldl (fun a d => (trap_update world_w player_rect d a).1) tr

/-- One platform of the X collision loop (main.py lines 1034-1045). -/

def x_collide_step (traps : List Trap) (pl : Player) (p : Rect) : Player :=
  if ¬ platform_is_active traps p then pl
  else if pl.rect.collide p then
    if pl.vx > 0 then
      let rx := p.x - pl.rect.w
      { pl with rect := { pl.rect with x := rx }, pos_x := (rx : ℚ), vx := 0 }
    else if pl.vx < 0 then
      let rx := p.x + p.w
      { pl with rect := { pl.rect with x := rx }, pos_x := (rx : ℚ), vx := 0 }
    else pl
  else pl

/-- The X collision pass over all platforms. -/

def x_pass (traps : List Trap) (platforms : List Rect) (pl : Player) :
    Player :=
  platforms.foldl (x_collide_step traps) pl

/-- One platform of the swept Y collision loop (main.py lines 1056-1093);
`prev` is the rect snapshot taken after the X pass. -/

def y_collide_step (traps : List Trap) (prev : Rect) (pl : Player)
    (p : Rect) : Player :=
  if ¬ platform_is_active traps p then pl
  else if ¬ (pl.rect.x + pl.rect.w > p.x ∧ pl.rect.x < p.x + p.w) then pl
  else if pl.gravity_flipped = false then
    if pl.vy ≥ 0 ∧ prev.y + prev.h ≤ p.y ∧ pl.rect.y + pl.rect.h ≥ p.y then
      let ry := p.y - pl.rect.h
      { pl with
          rect := { pl.rect with y := ry }, pos_y := (ry : ℚ), vy := 0,
          on_ground := true }
    else if pl.vy ≤ 0 ∧ prev.y ≥ p.y + p.h ∧ pl.rect.y ≤ p.y + p.h then
      let ry := p.y + p.h
      { pl with rect := { pl.rect with y := ry }, pos_y := (ry : ℚ), vy := 0 }
    else pl
  else
    if pl.vy ≤ 0 ∧ prev.y ≥ p.y + p.h ∧ pl.rect.y ≤ p.y + p.h then
      let ry := p.y + p.h
      { pl with
          rect := { pl.rect with y := ry }, pos_y := (ry : ℚ), vy := 0,
          on_ground := true }
    else if pl.vy ≥ 0 ∧ prev.y + prev.h ≤ p.y ∧ pl.rect.y + pl.rect.h ≥ p.y then
      let ry := p.y - pl.rect.h
      { pl with rect := { pl.rect with y := ry }, pos_y := (ry : ℚ), vy := 0 }
    else pl

/-- The Y collision pass over all platforms. -/

def y_pass (traps : List Trap) (platforms : List Rect) (prev : Rect)
    (pl : Player) : Player :=
  platforms.foldl (y_collide_step traps prev) pl

/-- The movement part of `resolve_physics` (main.py lines 1021-1099): the
X pass, the swept Y pass, and the out-of-bounds death test.  Returns the
moved player and the fall-out death flag. -/

def resolve_move (pl : Player) (lv : Level) (dt : ℚ) : Player × Bool :=
  let px := clamp (pl.pos_x + pl.vx * dt) 0 ((lv.world_w : ℚ) - (pl.rect.w : ℚ))
  let pl1 := { pl with pos_x := px, rect := { pl.rect with x := pyInt px } }
  let pl2 := x_pass lv.traps lv.platforms pl1
  let prev := pl2.rect
  let py := pl2.pos_y + pl2.vy * dt
  let pl3 :=
    { pl2 with
        pos_y := py, rect := { pl2.rect with y := pyInt py },
        on_ground := false }
  let pl4 := y_pass lv.traps lv.platforms prev pl3
  let died := (pl4.gravity_flipped = false ∧ pl4.rect.y > HEIGHT + 220) ∨
      (pl4.gravity_flipped = true ∧ pl4.rect.y + pl4.rect.h < -220)
  (pl4, decide died)

/-- One trap of the hazard loop of `resolve_physics` (main.py lines
1106-1167).  `t` is the trap at index `i` of `traps`; sizes of rects are
nonnegative so `w / 2` (pygame `centerx`) agrees with Python floor
division. -/

def hazard_step (ww : ℤ) (dt : ℚ) (pl : Player) (traps : List Trap)
    (i : ℕ) (t : Trap) (died : Bool) : Player × List Trap × Bool :=
  let died := if t.kind = "spikes" ∧ pl.rect.collide t.rect then true else died
  let died :=
    if t.kind = "laser" ∧ t.active.toBool ∧ pl.rect.collide t.rect then true
    else died
  let traps :=
    if t.kind = "trigger_hidden_spikes" ∧ pl.rect.collide t.rect then
      traps.map (fun h =>
        if h.kind = "hidden_spikes" then { h with active := .on, cooldown := 2 }
        else h)
    else traps
  let died :=
    if t.kind = "hidden_spikes" ∧ t.active.toBool ∧ pl.rect.collide t.rect then
      true
    else died
  let traps :=
    if t.kind = "collapsing_floor" ∧ t.active.toBool ∧ pl.on_ground ∧
        pl.rect.collide t.rect then
      traps.set i { t with triggered := true }
    else traps
  let traps :=
    if t.kind = "falling_block" ∧ t.active.toBool ∧
        (pl.rect.x + pl.rect.w / 2 > t.rect.x ∧
          pl.rect.x + pl.rect.w / 2 < t.rect.x + t.rect.w) ∧
        (pl.rect.y > t.rect.y + t.rect.h ∧
          pl.rect.y - (t.rect.y + t.rect.h) < 280) then
      traps.set i { t with triggered := true }
    else traps
  let died :=
    if t.kind = "falling_block" ∧ t.active.toBool ∧ pl.rect.collide t.rect then
      true
    else died
  let pl :=
    if t.kind = "shifting_wall" ∧ pl.rect.collide t.rect then
      let nx := clamp (pl.pos_x + (t.dir : ℚ) * 240 * dt) 0
        ((ww : ℚ) - (pl.rect.w : ℚ))
      { pl with pos_x := nx, rect := { pl.rect with x := pyInt nx } }
    else pl
  let traps :=
    if t.kind = "trigger_rising_pit" ∧ pl.rect.collide t.rect then
      traps.map (fun rp =>
        if rp.kind = "rising_pit" ∧ rp.active = .off then
          { rp with active := .on }
        else rp)
    else traps
  let died :=
    if t.kind = "rising_pit" ∧
        (t.active.toBool ∨ t.active = .hold ∨ t.active = .down) ∧
        pl.rect.collide t.rect then true
    else died
  let traps :=
    if t.kind = "arm_delayed_spikes" ∧ pl.rect.collide t.rect then
      traps.map (fun ds =>
        if ds.kind = "delayed_spikes" ∧ ds.used = false then
          { ds with used := true, active := .on }
        else ds)
    else traps
  let died :=
    if t.kind = "delayed_spikes" ∧ t.active.toBool ∧ pl.rect.collide t.rect then
      true
    else died
  let pl :=
    if t.kind = "gravity_flip_zone" ∧ pl.rect.collide t.rect ∧
        pl.gravity_flipped = false then
      { pl with gravity_flipped := true, gravity_flip_timer := 11/5 }
    else pl
  let pl :=
    if t.kind = "input_swap_zone" ∧ pl.rect.collide t.rect then
      let pl1 :=
        if pl.swap_lr = false then
          { pl with swap_lr := true, swap_lr_timer := INPUT_SWAP_DURATION }
        else pl
      if pl1.swap_jump = false then
        { pl1 with swap_jump := true, swap_jump_timer := JUMP_SWAP_DURATION }
      else pl1
    else pl
  (pl, traps, died)

/-- The hazard loop: iterate `hazard_step` over trap indices (Python
iterates the live list, so each step reads the current version of the
list).  The fuel argument is the number of remaining indices. -/

def hazard_go (ww : ℤ) (dt : ℚ) :
    ℕ → ℕ → Player → List Trap → Bool → Player × List Trap × Bool
  | 0, _, pl, traps, died => (pl, traps, died)
  | fuel + 1, i, pl, traps, died =>
    match traps[i]? with
    | none => (pl, traps, died)
    | some t =>
      let r := hazard_step ww dt pl traps i t died
      hazard_go ww dt fuel (i + 1) r.1 r.2.1 r.2.2

/-- The bounding rect of a projectile used by the projectile-hit loop
(main.py line 1171). -/

def projHitRect (p : Projectile) : Rect :=
  { x := pyInt (p.px - (p.radius : ℚ)), y := pyInt (p.py - (p.radius : ℚ)),
    w := p.radius * 2, h := p.radius * 2 }

/-- The hazard phase of `resolve_physics` (trap loop then projectile
loop), reached only without active i-frames. -/

def resolve_hazards (pl : Player) (lv : Level) (dt : ℚ) (died : Bool) :
    Player × Level × Bool :=
  let r := hazard_go lv.world_w dt lv.traps.length 0 pl lv.traps died
  let died2 := r.2.2 || lv.projectiles.any (fun p => r.1.rect.collide (projHitRect p))
  let projs2 := lv.projectiles.map (fun p =>
    if r.1.rect.collide (projHitRect p) then { p with active := false } else p)
  (r.1, { lv with traps := r.2.1, projectiles := projs2 }, died2)

/-- `resolve_physics(player, level, dt)` (main.py lines 1021-1176):
movement passes, fall-out test, then either the i-frame short-circuit
(`return False`, level untouched) or the hazard phase. -/

def resolve_physics (pl : Player) (lv : Level) (dt : ℚ) :
    Player × Level × Bool :=
  let m := resolve_move pl lv dt
  if m.1.i_frames > 0 then (m.1, lv, false)
  else resolve_hazards m.1 lv dt m.2

/-! ## parse_bpm (bpm_udp.py lines 19-47)

Wire strings are `List Char`.  `str.isdigit` is modelled as ASCII digits
and `str.strip` as ASCII whitespace stripping.  `json.loads` is modelled
with the full JSON value grammar of Python's strict decoder: objects,
arrays, strings with escape decoding (including `\uXXXX` with surrogate
pairing), numbers with fraction and exponent, `true`/`false`/`null`, and
the `Infinity`/`-Infinity`/`NaN` extension.  `float(str)` is modelled
with CPython's grammar: sign, digits with one dot, exponent, underscore
digit grouping; `inf`/`nan` forms map to failure because the source's
`int(round(...))` raises on them and lands in `except`.  Two
idealizations: numbers are exact rationals (float rounding/overflow of
huge literals such as `1e400` is ignored, as everywhere in this file),
and a lone surrogate from `\uXXXX` becomes U+FFFD (it can never equal
the `"bpm"` key nor convert to a number, so no outcome changes). -/

def isSpaceChar (c : Char) : Bool :=
  c = ' ' || c = '\t' || c = '\n' || c = '\r' || c = '\x0B' || c = '\x0C'

/-- `str.strip()`. -/

def pyStrip (s : List Char) : List Char :=
  ((s.dropWhile isSpaceChar).reverse.dropWhile isSpaceChar).reverse

def isDigitChar (c : Char) : Bool := decide ('0' ≤ c) && decide (c ≤ '9')

/-- `str.isdigit()` (ASCII): nonempty and all digits. -/

def pyIsdigit (s : List Char) : Bool := !s.isEmpty && s.all isDigitChar

/-- `s.replace(".", "", 1)`: drop the first dot. -/

def removeFirstDot : List Char → List Char
  | [] => []
  | c :: rest => if c = '.' then rest else c :: removeFirstDot rest

def digitsVal (s : List Char) : ℕ :=
  s.foldl (fun a c => a * 10 + (c.toNat - 48)) 0

def splitAtDot (s : List Char) : List Char × List Char :=
  let q := s.span (fun c => !(c = '.'))
  (q.1, q.2.drop 1)

/-- `float(p)` for a token that passed the
`p.replace(".", "", 1).isdigit()` guard: digits with at most one dot. -/

def parseNumToken (s : List Char) : ℚ :=
  let q := splitAtDot s
  (digitsVal q.1 : ℚ) + (digitsVal q.2 : ℚ) / (10 : ℚ) ^ q.2.length

/-- PEP 515 digit grouping: every underscore must sit between two
digits; the result is the token with the underscores removed, `none` when
one is misplaced. -/

def stripUndGo : Option Char → List Char → Option (List Char)
  | _, [] => some []
  | prev, c :: rest =>
    if c = '_' then
      match prev, rest with
      | some p, n :: _ =>
        if isDigitChar p ∧ isDigitChar n then stripUndGo prev rest else none
      | _, _ => none
    else (stripUndGo (some c) rest).map (fun l => c :: l)

/-- `float(str)` for a JSON string field (CPython grammar): strip,
optional sign, digits with at most one dot (at least one digit), optional
`e`/`E` exponent, underscore grouping.  The `inf`/`infinity`/`nan` forms
yield `none`: the caller's `int(round(...))` raises on them, which the
source's `except` turns into `None` anyway. -/

def pyFloatOfString (s0 : List Char) : Option ℚ :=
  let s := pyStrip s0
  let sgnq : ℚ × List Char :=
    match s with
    | '+' :: r => (1, r)
    | '-' :: r => (-1, r)
    | _ => (1, s)
  let low := sgnq.2.map (fun c => c.toLower)
  if low = ['i', 'n', 'f'] ∨ low = ['i', 'n', 'f', 'i', 'n', 'i', 't', 'y'] ∨
      low = ['n', 'a', 'n'] then none
  else
    match stripUndGo none sgnq.2 with
    | none => none
    | some t =>
      let ip := t.span isDigitChar
      let mq : Option (ℚ × List Char) :=
        match ip.2 with
        | '.' :: r2 =>
          let fp := r2.span isDigitChar
          if ip.1 = [] ∧ fp.1 = [] then none
          else some ((digitsVal ip.1 : ℚ) +
            (digitsVal fp.1 : ℚ) / (10 : ℚ) ^ fp.1.length, fp.2)
        | _ =>
          if ip.1 = [] then none else some ((digitsVal ip.1 : ℚ), ip.2)
      match mq with
      | none => none
      | some (m, r3) =>
        match r3 with
        | [] => some (sgnq.1 * m)
        | e :: r4 =>
          if e = 'e' ∨ e = 'E' then
            let eneg := r4.head? = some '-'
            let r5 :=
              if r4.head? = some '-' ∨ r4.head? = some '+' then r4.drop 1
              else r4
            let ed := r5.span isDigitChar
            if ed.1 = [] ∨ ed.2 ≠ [] then none
            else
              some (sgnq.1 * (if eneg then m / (10 : ℚ) ^ digitsVal ed.1
                else m * (10 : ℚ) ^ digitsVal ed.1))
          else none

/-- A JSON value as Python's `json.loads` produces it: numbers (kept as
exact rationals), strings (escape-decoded), booleans, `null`, arrays,
objects, and the non-finite `Infinity`/`-Infinity`/`NaN` extension. -/

inductive JVal where
  | num : ℚ → JVal
  | str : List Char → JVal
  | bool : Bool → JVal
  | null : JVal
  | arr : List JVal → JVal
  | obj : List (List Char × JVal) → JVal
  | nonfinite : JVal

def isJsonWs (c : Char) : Bool :=
  c = ' ' || c = '\t' || c = '\n' || c = '\r'

def skipJWs (s : List Char) : List Char := s.dropWhile isJsonWs

def hexVal (c : Char) : Option ℕ :=
  if '0' ≤ c ∧ c ≤ '9' then some (c.toNat - 48)
  else if 'a' ≤ c ∧ c ≤ 'f' then some (c.toNat - 87)
  else if 'A' ≤ c ∧ c ≤ 'F' then some (c.toNat - 55)
  else none

/-- Four hex digits of a `\uXXXX` escape. -/

def hex4 : List Char → Option (ℕ × List Char)
  | a :: b :: c :: d :: rest =>
    match hexVal a, hexVal b, hexVal c, hexVal d with
    | some x, some y, some z, some w =>
      some (((x * 16 + y) * 16 + z) * 16 + w, rest)
    | _, _, _, _ => none
  | _ => none

/-- JSON string body after the opening quote (strict mode): raw control
characters are rejected, the eight escapes and `\uXXXX` are decoded, a
high+low `\uXXXX` surrogate pair is combined as CPython's decoder does,
and a lone surrogate becomes U+FFFD (see the section comment). -/

def jstringGo : ℕ → List Char → List Char → Option (List Char × List Char)
  | 0, _, _ => none
  | fuel + 1, s, acc =>
    match s with
    | [] => none
    | c :: rest =>
      if c = '"' then some (acc.reverse, rest)
      else if c = '\\' then
        match rest with
        | [] => none
        | e :: r2 =>
          if e = '"' then jstringGo fuel r2 ('"' :: acc)
          else if e = '\\' then jstringGo fuel r2 ('\\' :: acc)
          else if e = '/' then jstringGo fuel r2 ('/' :: acc)
          else if e = 'b' then jstringGo fuel r2 (Char.ofNat 8 :: acc)
          else if e = 'f' then jstringGo fuel r2 (Char.ofNat 12 :: acc)
          else if e = 'n' then jstringGo fuel r2 ('\n' :: acc)
          else if e = 'r' then jstringGo fuel r2 ('\r' :: acc)
          else if e = 't' then jstringGo fuel r2 ('\t' :: acc)
          else if e = 'u' then
            match hex4 r2 with
            | none => none
            | some (n1, r3) =>
              if 0xD800 ≤ n1 ∧ n1 < 0xDC00 then
                match r3 with
                | '\\' :: 'u' :: r4 =>
                  match hex4 r4 with
                  | none => none
                  | some (n2, r5) =>
                    if 0xDC00 ≤ n2 ∧ n2 < 0xE000 then
                      jstringGo fuel r5 (Char.ofNat
                        (0x10000 + (n1 - 0xD800) * 0x400 + (n2 - 0xDC00)) :: acc)
                    else jstringGo fuel r3 (Char.ofNat 0xFFFD :: acc)
                | _ => jstringGo fuel r3 (Char.ofNat 0xFFFD :: acc)
              else if 0xDC00 ≤ n1 ∧ n1 < 0xE000 then
                jstringGo fuel r3 (Char.ofNat 0xFFFD :: acc)
              else jstringGo fuel r3 (Char.ofNat n1 :: acc)
          else none
      else if c.toNat < 0x20 then none
      else jstringGo fuel rest (c :: acc)

/-- Parse a JSON string literal, decoding its escapes. -/

def parseJStringF (fuel : ℕ) : List Char → Option (List Char × List Char)
  | '"' :: rest => jstringGo fuel rest []
  | _ => none

/-- Parse a JSON number with Python's grammar:
`-? (0 | [1-9][0-9]*) (. [0-9]+)? ([eE] [+-]? [0-9]+)?`, kept exact as a
rational. -/

def parseJNumber (s : List Char) : Option (ℚ × List Char) :=
  let neg := s.head? = some '-'
  let s1 := if neg then s.drop 1 else s
  match s1 with
  | [] => none
  | c :: rest =>
    if ¬ isDigitChar c then none
    else
      let ip : List Char × List Char :=
        if c = '0' then ([c], rest) else s1.span isDigitChar
      let fq : Option (ℚ × List Char) :=
        match ip.2 with
        | '.' :: r2 =>
          let fp := r2.span isDigitChar
          if fp.1 = [] then none
          else some ((digitsVal ip.1 : ℚ) +
            (digitsVal fp.1 : ℚ) / (10 : ℚ) ^ fp.1.length, fp.2)
        | _ => some ((digitsVal ip.1 : ℚ), ip.2)
      match fq with
      | none => none
      | some (v0, r3) =>
        match r3 with
        | [] => some (if neg then -v0 else v0, [])
        | e :: r4 =>
          if e = 'e' ∨ e = 'E' then
            let eneg := r4.head? = some '-'
            let r5 :=
              if r4.head? = some '-' ∨ r4.head? = some '+' then r4.drop 1
              else r4
            let ed := r5.span isDigitChar
            if ed.1 = [] then none
            else
              let v1 := if eneg then v0 / (10 : ℚ) ^ digitsVal ed.1
                else v0 * (10 : ℚ) ^ digitsVal ed.1
              some (if neg then -v1 else v1, ed.2)
          else some (if neg then -v0 else v0, r3)

mutual

/-- Parse one JSON value (leading whitespace allowed), as Python's strict
decoder does, including the `true`/`false`/`null` literals and the
`NaN`/`Infinity`/`-Infinity` extension. -/

def parseJValue : ℕ → List Char → Option (JVal × List Char)
  | 0, _ => none
  | fuel + 1, s0 =>
    let s := skipJWs s0
    match s with
    | [] => none
    | c :: rest =>
      if c = '"' then
        match parseJStringF fuel s with
        | some r => some (.str r.1, r.2)
        | none => none
      else if c = '{' then
        match skipJWs rest with
        | '}' :: rem => some (.obj [], rem)
        | _ =>
          match parseJMembers fuel rest with
          | none => none
          | some pr =>
            match skipJWs pr.2 with
            | '}' :: rem2 => some (.obj pr.1, rem2)
            | _ => none
      else if c = '[' then
        match skipJWs rest with
        | ']' :: rem => some (.arr [], rem)
        | _ =>
          match parseJItems fuel rest with
          | none => none
          | some pr =>
            match skipJWs pr.2 with
            | ']' :: rem2 => some (.arr pr.1, rem2)
            | _ => none
      else if s.take 4 = ['t', 'r', 'u', 'e'] then some (.bool true, s.drop 4)
      else if s.take 5 = ['f', 'a', 'l', 's', 'e'] then
        some (.bool false, s.drop 5)
      else if s.take 4 = ['n', 'u', 'l', 'l'] then some (.null, s.drop 4)
      else if s.take 3 = ['N', 'a', 'N'] then some (.nonfinite, s.drop 3)
      else if s.take 8 = ['I', 'n', 'f', 'i', 'n', 'i', 't', 'y'] then
        some (.nonfinite, s.drop 8)
      else if s.take 9 = ['-', 'I', 'n', 'f', 'i', 'n', 'i', 't', 'y'] then
        some (.nonfinite, s.drop 9)
      else
        match parseJNumber s with
        | some r => some (.num r.1, r.2)
        | none => none

/-- Comma-separated `"key" : value` members of an object. -/

def parseJMembers : ℕ → List Char →
    Option (List (List Char × JVal) × List Char)
  | 0, _ => none
  | fuel + 1, s =>
    match parseJStringF fuel (skipJWs s) with
    | none => none
    | some k =>
      match skipJWs k.2 with
      | ':' :: rest =>
        match parseJValue fuel rest with
        | none => none
        | some v =>
          match skipJWs v.2 with
          | ',' :: rest2 =>
            match parseJMembers fuel rest2 with
            | some pr => some ((k.1, v.1) :: pr.1, pr.2)
            | none => none
          | _ => some ([(k.1, v.1)], v.2)
      | _ => none

/-- Comma-separated items of an array. -/

def parseJItems : ℕ → List Char → Option (List JVal × List Char)
  | 0, _ => none
  | fuel + 1, s =>
    match parseJValue fuel s with
    | none => none
    | some v =>
      match skipJWs v.2 with
      | ',' :: rest2 =>
        match parseJItems fuel rest2 with
        | some pr => some (v.1 :: pr.1, pr.2)
        | none => none
      | _ => some ([v.1], v.2)

end

/-- `json.loads(msg)` followed by the source's `.get`: the document must
parse completely and be an object (the stripped payload starts with `{`,
so any successful parse is one); its top-level members are returned.  A
parse failure is `json.loads` raising, which the source's `except` turns
into `None`.  The fuel `4*length + 8` covers every parser step: each
fuel-consuming call follows the consumption of at least one character,
with at most a constant number of calls per character. -/

def jsonLoadsObj (s : List Char) : Option (List (List Char × JVal)) :=
  match parseJValue (4 * s.length + 8) s with
  | some (JVal.obj pairs, rem) =>
    if skipJWs rem = [] then some pairs else none
  | _ => none

/-- Python dict semantics: the last duplicate key wins (`obj.get`). -/

def lookupLast (key : List Char) (l : List (List Char × JVal)) : Option JVal :=
  l.foldl (fun acc kv => if kv.1 = key then some kv.2 else acc) none

def bpmKey : List Char := ['b', 'p', 'm']

/-- The JSON branch of `parse_bpm` (bpm_udp.py lines 25-33):
`int(round(float(obj.get("bpm"))))` with every failure mapped to `None`.
A missing key and a `null` value both give `bpm is None`; `float` of a
boolean is 0.0/1.0; `float` of a list or dict raises `TypeError` and
`int(round(...))` of an infinity or NaN raises too — all caught by the
source's `except`. -/

def jsonBpm (s : List Char) : Option ℤ :=
  match jsonLoadsObj s with
  | none => none
  | some pairs =>
    match lookupLast bpmKey pairs with
    | none => none
    | some JVal.null => none
    | some (.num q) => some (pyRound q)
    | some (.str v) =>
      match pyFloatOfString v with
      | some q => some (pyRound q)
      | none => none
    | some (.bool b) => some (pyRound (if b then (1 : ℚ) else 0))
    | some (.arr _) => none
    | some (.obj _) => none
    | some JVal.nonfinite => none

def splitColonAux : List Char → List Char → List (List Char)
  | [], acc => [acc.reverse]
  | c :: rest, acc =>
    if c = ':' then acc.reverse :: splitColonAux rest []
    else splitColonAux rest (c :: acc)

/-- `msg.split(":")`. -/

def splitColon (s : List Char) : List (List Char) := splitColonAux s []

/-- One token of the colon branch (bpm_udp.py lines 37-41): strip, check
the digits-with-one-dot guard, convert. -/

def numTokenVal (p : List Char) : Option ℤ :=
  let q := pyStrip p
  if pyIsdigit (removeFirstDot q) then some (pyRound (parseNumToken q))
  else none

/-- The colon branch: the rightmost numeric token wins. -/

def rightmostNumericToken (s : List Char) : Option ℤ :=
  (splitColon s).reverse.findSome? numTokenVal

/-- `parse_bpm(msg)` (bpm_udp.py lines 19-47). -/

def parse_bpm (m : List Char) : Option ℤ :=
  let s := pyStrip m
  if s = [] then none
  else if s.head? = some '{' ∧ s.getLast? = some '}' then jsonBpm s
  else
    match (if ':' ∈ s then rightmostNumericToken s else none) with
    | some v => some v
    | none =>
      if pyIsdigit (removeFirstDot s) then some (pyRound (parseNumToken s))
      else none

/-- Claim-side predicate: the (stripped) payload is a bare number. -/

def isBareNumber (m : List Char) : Bool :=
  pyIsdigit (removeFirstDot (pyStrip m))

/-- Claim-side predicate: the (stripped) payload is brace-delimited. -/

def braceDelimited (m : List Char) : Bool :=
  decide ((pyStrip m).head? = some '{') &&
    decide ((pyStrip m).getLast? = some '}')

/-- Claim-side predicate: the payload is a colon-separated string with a
numeric token. -/

def isColonNumeric (m : List Char) : Bool :=
  decide (':' ∈ pyStrip m) && (rightmostNumericToken (pyStrip m)).isSome

/-- Claim-side predicate: a JSON object payload yielding a bpm value. -/

def isJsonBpmObject (m : List Char) : Bool :=
  braceDelimited m && (jsonBpm (pyStrip m)).isSome

/-- A spikes trap fully overlapping the witness player. -/

def spikeTrap : Trap :=
  { rect := { x := 60, y := 540, w := 200, h := 60 }, kind := "spikes",
    active := .on, t := 0, triggered := false, used := false, dir := 1,
    speed := 0, base_x := 0, base_y := 0, cooldown := 0 }

/-- A one-trap level for the C2 witness. -/

def lvSpike : Level :=
  { platforms := [], traps := [spikeTrap], projectiles := [],
    world_w := 10240, level_time := 0 }

/-- The witness player right after respawn (full i-frame window). -/

def pInvuln : Player := { pGrounded with i_frames := 8/10 }

/-- An all-zero rect standing in for the player rect where it is unread. -/

def dummyRect : Rect := { x := 0, y := 0, w := 0, h := 0 }

/-- Level 1's first collapsing floor, freshly triggered. -/

def cfTrap : Trap :=
  { rect := { x := 760, y := 530, w := 170, h := 18 },
    kind := "collapsing_floor", active := .on, t := 0, triggered := true,
    used := false, dir := 1, speed := 0, base_x := 0, base_y := 0,
    cooldown := 0 }

/-- Level 1's first falling block, triggered and active. -/

def fbTrap : Trap :=
  { rect := { x := 1540, y := 210, w := 70, h := 70 },
    kind := "falling_block", active := .on, t := 0, triggered := true,
    used := false, dir := 1, speed := 0, base_x := 1540, base_y := 210,
    cooldown := 0 }

/-- The payload `{a:82:b}`: braces around colon-separated text with a
numeric token. -/

def cexMsg : List Char := ['{', 'a', ':', '8', '2', ':', 'b', '}']

/-- The payload `{"bpm": 82}`. -/

def jsonMsg : List Char :=
  ['{', '"', 'b', 'p', 'm', '"', ':', ' ', '8', '2', '}']

/-! ## Theorems -/

/-- C5: `mode()` returns the manual override unconditionally when one is
set (the program only ever sets "stress"/"panic"); with no override it
returns "panic" iff the rounded bpm exceeds baseline+20, else "stress" iff
it is at least baseline+10, else "normal"; and the result depends on the
float `current` only through the rounded integer bpm. -/

theorem C5_mode_thresholds (s : HeartRateController) :
    (s.mode_override = some ("panic") → s.mode = "panic") ∧
    (s.mode_override = some ("stress") → s.mode = "stress") ∧
    (s.mode_override = none →
      s.mode = (if pyRound s.current > s.baseline + 20 then "panic"
                else if pyRound s.current ≥ s.baseline + 10 then "stress"
                else "normal")) ∧
    (∀ s' : HeartRateController, s'.baseline = s.baseline →
      s'.mode_override = s.mode_override →
      pyRound s'.current = pyRound s.current → s'.mode = s.mode) := by
  refine ⟨?_, ?_, ?_, ?_⟩
  · intro h
    simp [HeartRateController.mode, h]
  · intro h
    simp [HeartRateController.mode, h]
  · intro h
    simp [HeartRateController.mode, HeartRateController.bpm, h,
      PANIC_DELTA, STRESS_DELTA]
  · intro s' hb ho hr
    simp only [HeartRateController.mode, HeartRateController.bpm, hb, ho, hr]

/-- Witness for C5: a concrete state with no override, rounded bpm 95
against baseline 80, lands in "stress". -/

theorem C5_mode_thresholds_witness :
    ({ baseline := 80, current := 95, target := 95, timer := 0,
       mode_override := none } : HeartRateController).mode = "stress" := by
  have h := (C5_mode_thresholds
    { baseline := 80, current := 95, target := 95, timer := 0,
      mode_override := none }).2.2.1 rfl
  rw [h]
  norm_num [pyRound]

/-- C7 counterexample: at a concrete state (baseline 80, current 80,
target 100, timer 0) with dt = 1/4 and no manual keys, `update` smooths at
rate 2 per second (result 90); the claimed 8-per-second rate would give
100.  There is no external/live bpm path in `HeartRateController.update`
at all. -/

theorem C7_counterexample :
    (({ baseline := 80, current := 80, target := 100, timer := 0,
        mode_override := none } : HeartRateController).update (1/4)
        false false 0).current = 90 ∧
      (90 : ℚ) ≠ 80 + (100 - 80) * min 1 ((1/4) * 8) := by
  constructor
  · norm_num [HeartRateController.update, clamp, min_def, max_def]
  · norm_num [min_def]

/-- C7 (amended): every tick of `HeartRateController.update` smooths
`current` toward a target at rate 2 per second, and the target is never an
externally supplied value: it is either the autonomous drift redraw (when
the one-second timer rolls over) or the previous target. -/

theorem C7_drift_rate_two (s : HeartRateController) (dt : ℚ)
    (hrUp hrDown : Bool) (newTarget : ℚ) :
    ∃ t' : ℚ, (t' = newTarget ∨ t' = s.target) ∧
      (s.update dt hrUp hrDown newTarget).current =
        clamp ((if hrDown then (if hrUp then s.current + 60 * dt else s.current) - 60 * dt
                else (if hrUp then s.current + 60 * dt else s.current)) +
          (t' - (if hrDown then (if hrUp then s.current + 60 * dt else s.current) - 60 * dt
                 else (if hrUp then s.current + 60 * dt else s.current))) *
            min 1 (dt * 2)) 45 190 := by
  by_cases h : s.timer + dt > 1
  · exact ⟨newTarget, Or.inl rfl, by simp [HeartRateController.update, h]⟩
  · exact ⟨s.target, Or.inr rfl, by simp [HeartRateController.update, h]⟩

/-- C1: for every dt ≥ 0, a grounded, non-flipped player with zero net
input (no key held) and no pending jump buffer comes out of
`Player.update` with vy exactly 0 and still grounded: vertical velocity is
forced to zero instead of accumulating gravity. -/

theorem C1_gravity_snap (p : Player) (dt : ℚ) (mode : String)
    (hdt : 0 ≤ dt) (hg : p.on_ground = true) (hf : p.gravity_flipped = false)
    (hjb : p.jump_buf = 0) :
    (p.update dt noKeys mode).vy = 0 ∧
      (p.update dt noKeys mode).on_ground = true := by
  have hnn : ¬ dt < 0 := not_lt.mpr hdt
  simp [Player.update, tickFlag, jumpFires, noKeys, hg, hf, hjb, hnn, clamp]

/-- Witness for C1 at a concrete grounded player and dt = 1. -/

theorem C1_gravity_snap_witness :
    (pGrounded.update 1 noKeys "normal").vy = 0 := by
  exact (C1_gravity_snap pGrounded 1 "normal" (by norm_num) rfl rfl rfl).1

/-- C4: the jump decision of `Player.update` fires exactly when both the
jump buffer and the coyote window are positive at evaluation time; and an
airborne, non-flipped player whose coyote has already decayed to 0 who
presses jump only loads the 0.10 s jump buffer — vy follows gravity alone
and the player stays airborne. -/

theorem C4_jump_iff_buffer_and_coyote :
    (∀ jb coy : ℚ, jumpFires jb coy = true ↔ (jb > 0 ∧ coy > 0)) ∧
    (∀ (p : Player) (dt : ℚ) (k : Keys) (mode : String),
      0 ≤ dt → p.on_ground = false → p.coyote = 0 →
      p.swap_jump = false → p.gravity_flipped = false → k.jump = true →
      (p.update dt k mode).jump_buf = 1/10 ∧
        (p.update dt k mode).on_ground = false ∧
        (p.update dt k mode).vy = clamp (p.vy + GRAVITY * dt) (-1600) 1600) := by
  constructor
  · intro jb coy
    simp [jumpFires]
  · intro p dt k mode hdt hog hcoy hsj hgf hk
    have hnn : ¬ dt < 0 := not_lt.mpr hdt
    simp [Player.update, tickFlag, jumpFires, hog, hcoy, hsj, hgf, hk, hnn]

/-- Witness for C4: airborne player, coyote 0, jump pressed, dt = 1/60. -/

theorem C4_jump_iff_buffer_and_coyote_witness :
    jumpFires 1 1 = true ∧
      (pAirborne.update (1/60) jumpOnlyKeys "normal").jump_buf = 1/10 := by
  refine ⟨(C4_jump_iff_buffer_and_coyote.1 1 1).2 ⟨by norm_num, by norm_num⟩, ?_⟩
  exact (C4_jump_iff_buffer_and_coyote.2 pAirborne (1/60) jumpOnlyKeys
    "normal" (by norm_num) rfl rfl rfl rfl rfl).1

/-- C9: `Player.respawn` resets position to the spawn point, zeroes the
velocities, both jump windows, every swap/flip/flash timer and flag, sets
i-frames to 0.8 s, and leaves `flash_charges` and `facing` untouched. -/

theorem C9_respawn_resets (p : Player) :
    (p.respawn).flash_charges = p.flash_charges ∧
    (p.respawn).facing = p.facing ∧
    (p.respawn).pos_x = p.spawn_x ∧ (p.respawn).pos_y = p.spawn_y ∧
    (p.respawn).vx = 0 ∧ (p.respawn).vy = 0 ∧
    (p.respawn).coyote = 0 ∧ (p.respawn).jump_buf = 0 ∧
    (p.respawn).gravity_flipped = false ∧ (p.respawn).gravity_flip_timer = 0 ∧
    (p.respawn).swap_lr = false ∧ (p.respawn).swap_lr_timer = 0 ∧
    (p.respawn).swap_jump = false ∧ (p.respawn).swap_jump_timer = 0 ∧
    (p.respawn).flash_active = false ∧ (p.respawn).flash_timer = 0 ∧
    (p.respawn).i_frames = 8/10 := by
  refine ⟨rfl, rfl, rfl, rfl, rfl, rfl, rfl, rfl, rfl, rfl, rfl, rfl, rfl,
    rfl, rfl, rfl, rfl⟩

/-- C10: mode "panic" imposes no movement or jump penalty: `Player.update`
in mode "panic" coincides with mode "normal" on every state and input, the
multipliers are 1.0 in both, and only mode "stress" applies the ×0.78
speed and ×0.86 jump penalties. -/

theorem C10_panic_no_penalty :
    (∀ fa : Bool, speedMult "panic" fa = speedMult "normal" fa) ∧
    speedMult "panic" false = 1 ∧ speedMult "normal" false = 1 ∧
    jumpMult "panic" = 1 ∧ jumpMult "normal" = 1 ∧
    speedMult "stress" false = 78/100 ∧ jumpMult "stress" = 86/100 ∧
    (∀ (p : Player) (dt : ℚ) (k : Keys),
      p.update dt k "panic" = p.update dt k "normal") := by
  refine ⟨?_, ?_, ?_, ?_, ?_, ?_, ?_, ?_⟩
  · intro fa; simp [speedMult]
  · simp [speedMult]
  · simp [speedMult]
  · simp [jumpMult]
  · simp [jumpMult]
  · simp [speedMult, STRESS_SPEED_MULT]
  · simp [jumpMult, STRESS_JUMP_MULT]
  · intro p dt k
    simp [Player.update, speedMult, jumpMult]

/-! ## Lemmas: the movement passes do not touch i-frames -/

theorem x_collide_step_i_frames (traps : List Trap) (pl : Player) (p : Rect) :
    (x_collide_step traps pl p).i_frames = pl.i_frames := by
  unfold x_collide_step
  split_ifs <;> rfl

theorem x_pass_i_frames (traps : List Trap) (platforms : List Rect)
    (pl : Player) : (x_pass traps platforms pl).i_frames = pl.i_frames := by
  induction platforms generalizing pl with
  | nil => rfl
  | cons p rest ih =>
    have h : x_pass traps (p :: rest) pl =
        x_pass traps rest (x_collide_step traps pl p) := rfl
    rw [h, ih, x_collide_step_i_frames]

theorem y_collide_step_i_frames (traps : List Trap) (prev : Rect)
    (pl : Player) (p : Rect) :
    (y_collide_step traps prev pl p).i_frames = pl.i_frames := by
  unfold y_collide_step
  split_ifs <;> rfl

theorem y_pass_i_frames (traps : List Trap) (platforms : List Rect)
    (prev : Rect) (pl : Player) :
    (y_pass traps platforms prev pl).i_frames = pl.i_frames := by
  induction platforms generalizing pl with
  | nil => rfl
  | cons p rest ih =>
    have h : y_pass traps (p :: rest) prev pl =
        y_pass traps rest prev (y_collide_step traps prev pl p) := rfl
    rw [h, ih, y_collide_step_i_frames]

theorem resolve_move_i_frames (pl : Player) (lv : Level) (dt : ℚ) :
    (resolve_move pl lv dt).1.i_frames = pl.i_frames := by
  unfold resolve_move
  simp [y_pass_i_frames, x_pass_i_frames]

/-- C2: with i-frames remaining when `resolve_physics` reaches its hazard
phase, the function returns "not dead" and the level — every trap and
every projectile — is left exactly as it was, whatever hazards overlap;
and with i-frames ≤ 0 it proceeds into the hazard phase on the moved
player. -/

theorem C2_iframe_shortcircuit (pl : Player) (lv : Level) (dt : ℚ) :
    (pl.i_frames > 0 →
        (resolve_physics pl lv dt).1 = (resolve_move pl lv dt).1 ∧
        (resolve_physics pl lv dt).2.1 = lv ∧
        (resolve_physics pl lv dt).2.2 = false) ∧
    (pl.i_frames ≤ 0 →
        resolve_physics pl lv dt =
          resolve_hazards (resolve_move pl lv dt).1 lv dt
            (resolve_move pl lv dt).2) := by
  have h := resolve_move_i_frames pl lv dt
  constructor
  · intro hpos
    have hgt : (resolve_move pl lv dt).1.i_frames > 0 := by rw [h]; exact hpos
    simp [resolve_physics, hgt]
  · intro hle
    have hngt : ¬ (resolve_move pl lv dt).1.i_frames > 0 := by
      rw [h]; exact not_lt.mpr hle
    simp [resolve_physics, hngt]

/-- Witness for C2: the freshly respawned player overlapping spikes is not
killed and the level is untouched. -/

theorem C2_iframe_shortcircuit_witness :
    (resolve_physics pInvuln lvSpike (1/60)).2.2 = false ∧
      (resolve_physics pInvuln lvSpike (1/60)).2.1 = lvSpike := by
  have h := (C2_iframe_shortcircuit pInvuln lvSpike (1/60)).1
    (by norm_num [pInvuln])
  exact ⟨h.2.2, h.2.1⟩

/-! ## Lemmas: the collapsing_floor state machine -/

theorem cf_tick_fresh (ww : ℤ) (pr : Rect) (d : ℚ) (tr : Trap)
    (hk : tr.kind = "collapsing_floor") (htr : tr.triggered = true)
    (hcd : tr.cooldown ≤ 0) :
    (trap_update ww pr d tr).1 =
      if (21/10 : ℚ) - d ≤ 0 then
        { tr with
            t := tr.t + d, active := .on, triggered := false,
            cooldown := 21/10 - d }
      else
        { tr with
            t := tr.t + d, active := .off, cooldown := 21/10 - d } := by
  obtain ⟨rect, kind, active, t0, trig, used, dr, sp, bx, bY, cd⟩ := tr
  simp only at hk htr hcd
  subst hk htr
  have h1 : (0 : ℚ) < 21/10 := by norm_num
  simp [trap_update, hcd, h1, sub_nonpos]
  split <;> rfl

theorem cf_tick_mid (ww : ℤ) (pr : Rect) (d : ℚ) (tr : Trap)
    (hk : tr.kind = "collapsing_floor") (htr : tr.triggered = true)
    (hcd : 0 < tr.cooldown) :
    (trap_update ww pr d tr).1 =
      if tr.cooldown - d ≤ 0 then
        { tr with
            t := tr.t + d, active := .on, triggered := false,
            cooldown := tr.cooldown - d }
      else
        { tr with
            t := tr.t + d, active := .off, cooldown := tr.cooldown - d } := by
  obtain ⟨rect, kind, active, t0, trig, used, dr, sp, bx, bY, cd⟩ := tr
  simp only at hk htr hcd
  subst hk htr
  have h2 : ¬ cd ≤ 0 := not_le.mpr hcd
  simp [trap_update, h2, hcd, sub_nonpos]
  split <;> rfl

theorem cf_tick_done (ww : ℤ) (pr : Rect) (d : ℚ) (tr : Trap)
    (hk : tr.kind = "collapsing_floor") (htr : tr.triggered = false)
    (hcd : tr.cooldown ≤ 0) :
    (trap_update ww pr d tr).1 = { tr with t := tr.t + d } := by
  obtain ⟨rect, kind, active, t0, trig, used, dr, sp, bx, bY, cd⟩ := tr
  simp only at hk htr hcd
  subst hk htr
  have h2 : ¬ (0 : ℚ) < cd := not_lt.mpr hcd
  simp [trap_update, h2]

theorem cf_run_done (ww : ℤ) (pr : Rect) (tr : Trap) (ds : List ℚ)
    (hk : tr.kind = "collapsing_floor") (htr : tr.triggered = false)
    (hcd : tr.cooldown ≤ 0) :
    runTrap ww pr tr ds = { tr with t := tr.t + ds.sum } := by
  induction ds generalizing tr with
  | nil => simp [runTrap]
  | cons d rest ih =>
    have hstep : runTrap ww pr tr (d :: rest) =
        runTrap ww pr ((trap_update ww pr d tr).1) rest := rfl
    rw [hstep, cf_tick_done ww pr d tr hk htr hcd]
    rw [ih { tr with t := tr.t + d } hk htr hcd]
    simp [add_assoc]

theorem cf_run_mid (ww : ℤ) (pr : Rect) (ds : List ℚ) (tr : Trap)
    (hk : tr.kind = "collapsing_floor") (htr : tr.triggered = true)
    (hact : tr.active = TrapActive.off) (hcd : 0 < tr.cooldown)
    (hds : ∀ d ∈ ds, 0 ≤ d) :
    (tr.cooldown ≤ ds.sum →
        (runTrap ww pr tr ds).active = TrapActive.on ∧
        (runTrap ww pr tr ds).triggered = false ∧
        (runTrap ww pr tr ds).cooldown ≤ 0 ∧
        (runTrap ww pr tr ds).rect = tr.rect ∧
        (runTrap ww pr tr ds).t = tr.t + ds.sum) ∧
    (ds.sum < tr.cooldown →
        (runTrap ww pr tr ds).active = TrapActive.off ∧
        (runTrap ww pr tr ds).triggered = true ∧
        (runTrap ww pr tr ds).cooldown = tr.cooldown - ds.sum ∧
        (runTrap ww pr tr ds).rect = tr.rect ∧
        (runTrap ww pr tr ds).t = tr.t + ds.sum) := by
  induction ds generalizing tr with
  | nil =>
    constructor
    · intro habs
      simp only [List.sum_nil] at habs
      linarith
    · intro _
      simp [runTrap, hact, htr]
  | cons d rest ih =>
    have hd0 : 0 ≤ d := hds d (by simp)
    have hrest : ∀ x ∈ rest, 0 ≤ x := fun x hx => hds x (by simp [hx])
    have hrs : 0 ≤ rest.sum := List.sum_nonneg hrest
    have hstep : runTrap ww pr tr (d :: rest) =
        runTrap ww pr ((trap_update ww pr d tr).1) rest := rfl
    rw [hstep, cf_tick_mid ww pr d tr hk htr hcd]
    by_cases hc : tr.cooldown - d ≤ 0
    · rw [if_pos hc]
      rw [cf_run_done ww pr
        { tr with
            t := tr.t + d, active := .on, triggered := false,
            cooldown := tr.cooldown - d } rest hk rfl hc]
      constructor
      · intro _
        refine ⟨rfl, rfl, hc, rfl, ?_⟩
        simp [add_assoc]
      · intro habs
        simp only [List.sum_cons] at habs
        linarith
    · rw [if_neg hc]
      have hcd2 : 0 < tr.cooldown - d := lt_of_not_ge (by simpa using hc)
      have hIH := ih { tr with
          t := tr.t + d, active := .off, cooldown := tr.cooldown - d }
        hk htr rfl hcd2 hrest
      constructor
      · intro hsum
        have hsum2 : tr.cooldown - d ≤ rest.sum := by
          simp only [List.sum_cons] at hsum
          linarith
        have h1 := hIH.1 hsum2
        refine ⟨h1.1, h1.2.1, h1.2.2.1, h1.2.2.2.1, ?_⟩
        rw [h1.2.2.2.2]
        simp [add_assoc]
      · intro hsum
        have hsum2 : rest.sum < tr.cooldown - d := by
          simp only [List.sum_cons] at hsum
          linarith
        have h2 := hIH.2 hsum2
        refine ⟨h2.1, h2.2.1, ?_, h2.2.2.2.1, ?_⟩
        · rw [h2.2.2.1]
          simp only [List.sum_cons]
          ring
        · rw [h2.2.2.2.2]
          simp [add_assoc]

/-! ## Lemmas: inactive collapsing_floor platforms are skipped -/

theorem platform_is_active_first (pre : List Trap) (u : Trap)
    (post : List Trap) (r : Rect)
    (hpre : ∀ v ∈ pre, ¬ (v.rect = r ∧ v.kind = "collapsing_floor"))
    (hr : u.rect = r) (hk : u.kind = "collapsing_floor") :
    platform_is_active (pre ++ u :: post) r = u.active.toBool := by
  induction pre with
  | nil => simp [platform_is_active, hr, hk]
  | cons v rest ih =>
    have hv := hpre v (by simp)
    have hrest : ∀ w ∈ rest, ¬ (w.rect = r ∧ w.kind = "collapsing_floor") :=
      fun w hw => hpre w (by simp [hw])
    simp only [List.cons_append, platform_is_active, hv, if_neg]
    exact ih hrest

theorem x_collide_step_inactive (traps : List Trap) (pl : Player) (p : Rect)
    (h : platform_is_active traps p = false) :
    x_collide_step traps pl p = pl := by
  simp [x_collide_step, h]

theorem y_collide_step_inactive (traps : List Trap) (prev : Rect)
    (pl : Player) (p : Rect) (h : platform_is_active traps p = false) :
    y_collide_step traps prev pl p = pl := by
  simp [y_collide_step, h]

theorem x_pass_skip (traps : List Trap) (l1 l2 : List Rect) (r : Rect)
    (pl : Player) (h : platform_is_active traps r = false) :
    x_pass traps (l1 ++ r :: l2) pl = x_pass traps (l1 ++ l2) pl := by
  unfold x_pass
  rw [List.foldl_append, List.foldl_append, List.foldl_cons]
  congr 1
  exact x_collide_step_inactive traps _ r h

theorem y_pass_skip (traps : List Trap) (l1 l2 : List Rect) (r : Rect)
    (prev : Rect) (pl : Player) (h : platform_is_active traps r = false) :
    y_pass traps (l1 ++ r :: l2) prev pl = y_pass traps (l1 ++ l2) prev pl := by
  unfold y_pass
  rw [List.foldl_append, List.foldl_append, List.foldl_cons]
  congr 1
  exact y_collide_step_inactive traps prev _ r h

/-- C3: a collapsing_floor that has just been triggered (cooldown spent)
is made inactive by `Level.update` and stays inactive with `triggered`
held, its cooldown counting down from 2.1; on the tick where the
accumulated dt reaches 2.1 it reactivates with `triggered` cleared; its
rectangle never moves; and while it is inactive, `platform_is_active` is
false for its rectangle and both the X and the Y platform passes of
`resolve_physics` ignore that rectangle entirely. -/

theorem C3_collapsing_floor_cycle (ww : ℤ) (pr : Rect) (tr : Trap)
    (ds : List ℚ) (hk : tr.kind = "collapsing_floor")
    (htr : tr.triggered = true) (hcd : tr.cooldown ≤ 0)
    (hds : ∀ d ∈ ds, 0 ≤ d) (hne : ds ≠ []) :
    (ds.sum < 21/10 →
        (runTrap ww pr tr ds).active = TrapActive.off ∧
        (runTrap ww pr tr ds).triggered = true ∧
        (runTrap ww pr tr ds).cooldown = 21/10 - ds.sum ∧
        (runTrap ww pr tr ds).rect = tr.rect) ∧
    ((21/10 : ℚ) ≤ ds.sum →
        (runTrap ww pr tr ds).active = TrapActive.on ∧
        (runTrap ww pr tr ds).triggered = false ∧
        (runTrap ww pr tr ds).rect = tr.rect) ∧
    (∀ (pre post : List Trap) (u : Trap),
        u.rect = tr.rect → u.kind = "collapsing_floor" →
        u.active = TrapActive.off →
        (∀ v ∈ pre, ¬ (v.rect = tr.rect ∧ v.kind = "collapsing_floor")) →
        platform_is_active (pre ++ u :: post) tr.rect = false ∧
        (∀ (l1 l2 : List Rect) (pl : Player),
          x_pass (pre ++ u :: post) (l1 ++ tr.rect :: l2) pl =
            x_pass (pre ++ u :: post) (l1 ++ l2) pl) ∧
        (∀ (l1 l2 : List Rect) (prev : Rect) (pl : Player),
          y_pass (pre ++ u :: post) (l1 ++ tr.rect :: l2) prev pl =
            y_pass (pre ++ u :: post) (l1 ++ l2) prev pl)) := by
  obtain ⟨d, rest, rfl⟩ : ∃ d rest, ds = d :: rest := by
    cases ds with
    | nil => exact absurd rfl hne
    | cons d rest => exact ⟨d, rest, rfl⟩
  have hd0 : 0 ≤ d := hds d (by simp)
  have hrest : ∀ x ∈ rest, 0 ≤ x := fun x hx => hds x (by simp [hx])
  have hrs : 0 ≤ rest.sum := List.sum_nonneg hrest
  have hstep : runTrap ww pr tr (d :: rest) =
      runTrap ww pr ((trap_update ww pr d tr).1) rest := rfl
  have hmain :
      ((d :: rest).sum < 21/10 →
        (runTrap ww pr tr (d :: rest)).active = TrapActive.off ∧
        (runTrap ww pr tr (d :: rest)).triggered = true ∧
        (runTrap ww pr tr (d :: rest)).cooldown = 21/10 - (d :: rest).sum ∧
        (runTrap ww pr tr (d :: rest)).rect = tr.rect) ∧
      ((21/10 : ℚ) ≤ (d :: rest).sum →
        (runTrap ww pr tr (d :: rest)).active = TrapActive.on ∧
        (runTrap ww pr tr (d :: rest)).triggered = false ∧
        (runTrap ww pr tr (d :: rest)).rect = tr.rect) := by
    rw [hstep, cf_tick_fresh ww pr d tr hk htr hcd]
    by_cases hc : (21/10 : ℚ) - d ≤ 0
    · rw [if_pos hc]
      rw [cf_run_done ww pr
        { tr with
            t := tr.t + d, active := .on, triggered := false,
            cooldown := 21/10 - d } rest hk rfl hc]
      constructor
      · intro habs
        simp only [List.sum_cons] at habs
        linarith
      · intro _
        exact ⟨rfl, rfl, rfl⟩
    · rw [if_neg hc]
      have hcd2 : 0 < (21/10 : ℚ) - d := lt_of_not_ge (by simpa using hc)
      have hIH := cf_run_mid ww pr rest { tr with
          t := tr.t + d, active := .off, cooldown := 21/10 - d }
        hk htr rfl hcd2 hrest
      constructor
      · intro hsum
        have hsum2 : rest.sum < (21/10 : ℚ) - d := by
          simp only [List.sum_cons] at hsum
          linarith
        have h2 := hIH.2 hsum2
        refine ⟨h2.1, h2.2.1, ?_, h2.2.2.2.1⟩
        rw [h2.2.2.1]
        simp only [List.sum_cons]
        ring
      · intro hsum
        have hsum2 : (21/10 : ℚ) - d ≤ rest.sum := by
          simp only [List.sum_cons] at hsum
          linarith
        have h1 := hIH.1 hsum2
        exact ⟨h1.1, h1.2.1, h1.2.2.2.1⟩
  refine ⟨hmain.1, hmain.2, ?_⟩
  intro pre post u hur huk hua hpre
  have hpia : platform_is_active (pre ++ u :: post) tr.rect = false := by
    rw [platform_is_active_first pre u post tr.rect hpre hur huk, hua]
    rfl
  refine ⟨hpia, ?_, ?_⟩
  · intro l1 l2 pl
    exact x_pass_skip _ l1 l2 _ pl hpia
  · intro l1 l2 prev pl
    exact y_pass_skip _ l1 l2 _ prev pl hpia

/-- Witness for C3: after ticks of 1 s, 1 s and 0.1 s (2.1 s accumulated)
the triggered floor is active again with `triggered` cleared, and an
inactive copy is excluded by `platform_is_active`. -/

theorem C3_collapsing_floor_cycle_witness :
    (runTrap 10240 dummyRect cfTrap [1, 1, 1/10]).active = TrapActive.on ∧
      (runTrap 10240 dummyRect cfTrap [1, 1, 1/10]).triggered = false ∧
      platform_is_active [{ cfTrap with active := TrapActive.off }]
        cfTrap.rect = false := by
  have hds : ∀ d ∈ ([1, 1, 1/10] : List ℚ), 0 ≤ d := by
    intro d hd
    rcases List.mem_cons.mp hd with rfl | hd
    · norm_num
    rcases List.mem_cons.mp hd with rfl | hd
    · norm_num
    rcases List.mem_cons.mp hd with rfl | hd
    · norm_num
    · exact absurd hd (List.not_mem_nil d)
  have h := C3_collapsing_floor_cycle 10240 dummyRect cfTrap [1, 1, 1/10]
    rfl rfl (by norm_num [cfTrap]) hds (by simp)
  have hsum : ([1, 1, 1/10] : List ℚ).sum = 21/10 := by
    norm_num [List.sum_cons]
  have h2 := h.2.1 (by rw [hsum])
  have h3 := (h.2.2 [] [] { cfTrap with active := TrapActive.off } rfl rfl rfl
    (by intro v hv; exact absurd hv (List.not_mem_nil v))).1
  exact ⟨h2.1, h2.2.1, h3⟩

/-! ## Lemmas: the falling_block state machine -/

theorem fb_tick_fall (ww : ℤ) (pr : Rect) (d : ℚ) (tr : Trap)
    (hk : tr.kind = "falling_block") (htr : tr.triggered = true)
    (hact : tr.active = TrapActive.on)
    (hy : tr.rect.y + pyInt (820 * d) ≤ HEIGHT + 250) :
    (trap_update ww pr d tr).1 =
      { tr with
          t := tr.t + d,
          rect := { tr.rect with y := tr.rect.y + pyInt (820 * d) } } := by
  obtain ⟨rect, kind, active, t0, trig, used, dr, sp, bx, bY, cd⟩ := tr
  obtain ⟨rx, ry, rw, rh⟩ := rect
  simp only at hk htr hact hy
  subst hk htr hact
  have h2 : ¬ ry + pyInt (820 * d) > HEIGHT + 250 := not_lt.mpr hy
  simp [trap_update, h2, TrapActive.toBool]

theorem fb_tick_deactivate (ww : ℤ) (pr : Rect) (d : ℚ) (tr : Trap)
    (hk : tr.kind = "falling_block") (htr : tr.triggered = true)
    (hact : tr.active = TrapActive.on)
    (hy : tr.rect.y + pyInt (820 * d) > HEIGHT + 250) :
    (trap_update ww pr d tr).1 =
      if (3/2 : ℚ) - d ≤ 0 then
        { tr with
            t := tr.t + d,
            rect := { tr.rect with x := tr.base_x, y := tr.base_y },
            active := .on, triggered := false, cooldown := 3/2 - d }
      else
        { tr with
            t := tr.t + d,
            rect := { tr.rect with y := tr.rect.y + pyInt (820 * d) },
            active := .off, cooldown := 3/2 - d } := by
  obtain ⟨rect, kind, active, t0, trig, used, dr, sp, bx, bY, cd⟩ := tr
  obtain ⟨rx, ry, rw, rh⟩ := rect
  simp only at hk htr hact hy
  subst hk htr hact
  simp [trap_update, hy, TrapActive.toBool, sub_nonpos]
  split <;> rfl

theorem fb_tick_inactive (ww : ℤ) (pr : Rect) (d : ℚ) (tr : Trap)
    (hk : tr.kind = "falling_block") (hact : tr.active = TrapActive.off) :
    (trap_update ww pr d tr).1 =
      if tr.cooldown - d ≤ 0 then
        { tr with
            t := tr.t + d,
            rect := { tr.rect with x := tr.base_x, y := tr.base_y },
            active := .on, triggered := false, cooldown := tr.cooldown - d }
      else
        { tr with t := tr.t + d, cooldown := tr.cooldown - d } := by
  obtain ⟨rect, kind, active, t0, trig, used, dr, sp, bx, bY, cd⟩ := tr
  obtain ⟨rx, ry, rw, rh⟩ := rect
  simp only at hk hact
  subst hk hact
  simp [trap_update, TrapActive.toBool, sub_nonpos]
  split <;> rfl

theorem fb_tick_stable (ww : ℤ) (pr : Rect) (d : ℚ) (tr : Trap)
    (hk : tr.kind = "falling_block") (htr : tr.triggered = false)
    (hact : tr.active = TrapActive.on) :
    (trap_update ww pr d tr).1 = { tr with t := tr.t + d } := by
  obtain ⟨rect, kind, active, t0, trig, used, dr, sp, bx, bY, cd⟩ := tr
  simp only at hk htr hact
  subst hk htr hact
  simp [trap_update, TrapActive.toBool]

theorem fb_run_stable (ww : ℤ) (pr : Rect) (tr : Trap) (ds : List ℚ)
    (hk : tr.kind = "falling_block") (htr : tr.triggered = false)
    (hact : tr.active = TrapActive.on) :
    runTrap ww pr tr ds = { tr with t := tr.t + ds.sum } := by
  induction ds generalizing tr with
  | nil => simp [runTrap]
  | cons d rest ih =>
    have hstep : runTrap ww pr tr (d :: rest) =
        runTrap ww pr ((trap_update ww pr d tr).1) rest := rfl
    rw [hstep, fb_tick_stable ww pr d tr hk htr hact]
    rw [ih { tr with t := tr.t + d } hk htr hact]
    simp [add_assoc]

theorem fb_run_inactive (ww : ℤ) (pr : Rect) (ds : List ℚ) (tr : Trap)
    (hk : tr.kind = "falling_block") (hact : tr.active = TrapActive.off)
    (hcd : 0 < tr.cooldown) (hds : ∀ d ∈ ds, 0 ≤ d) :
    (tr.cooldown ≤ ds.sum →
        (runTrap ww pr tr ds).active = TrapActive.on ∧
        (runTrap ww pr tr ds).triggered = false ∧
        (runTrap ww pr tr ds).rect =
          { tr.rect with x := tr.base_x, y := tr.base_y } ∧
        (runTrap ww pr tr ds).cooldown ≤ 0 ∧
        (runTrap ww pr tr ds).t = tr.t + ds.sum) ∧
    (ds.sum < tr.cooldown →
        (runTrap ww pr tr ds).active = TrapActive.off ∧
        (runTrap ww pr tr ds).triggered = tr.triggered ∧
        (runTrap ww pr tr ds).rect = tr.rect ∧
        (runTrap ww pr tr ds).cooldown = tr.cooldown - ds.sum ∧
        (runTrap ww pr tr ds).t = tr.t + ds.sum) := by
  induction ds generalizing tr with
  | nil =>
    constructor
    · intro habs
      simp only [List.sum_nil] at habs
      linarith
    · intro _
      simp [runTrap, hact]
  | cons d rest ih =>
    have hd0 : 0 ≤ d := hds d (by simp)
    have hrest : ∀ x ∈ rest, 0 ≤ x := fun x hx => hds x (by simp [hx])
    have hrs : 0 ≤ rest.sum := List.sum_nonneg hrest
    have hstep : runTrap ww pr tr (d :: rest) =
        runTrap ww pr ((trap_update ww pr d tr).1) rest := rfl
    rw [hstep, fb_tick_inactive ww pr d tr hk hact]
    by_cases hc : tr.cooldown - d ≤ 0
    · rw [if_pos hc]
      rw [fb_run_stable ww pr
        { tr with
            t := tr.t + d,
            rect := { tr.rect with x := tr.base_x, y := tr.base_y },
            active := .on, triggered := false, cooldown := tr.cooldown - d }
        rest hk rfl rfl]
      constructor
      · intro _
        refine ⟨rfl, rfl, rfl, hc, ?_⟩
        simp [add_assoc]
      · intro habs
        simp only [List.sum_cons] at habs
        linarith
    · rw [if_neg hc]
      have hcd2 : 0 < tr.cooldown - d := lt_of_not_ge (by simpa using hc)
      have hIH := ih { tr with t := tr.t + d, cooldown := tr.cooldown - d }
        hk hact hcd2 hrest
      constructor
      · intro hsum
        have hsum2 : tr.cooldown - d ≤ rest.sum := by
          simp only [List.sum_cons] at hsum
          linarith
        have h1 := hIH.1 hsum2
        refine ⟨h1.1, h1.2.1, h1.2.2.1, h1.2.2.2.1, ?_⟩
        rw [h1.2.2.2.2]
        simp [add_assoc]
      · intro hsum
        have hsum2 : rest.sum < tr.cooldown - d := by
          simp only [List.sum_cons] at hsum
          linarith
        have h2 := hIH.2 hsum2
        refine ⟨h2.1, h2.2.1, h2.2.2.1, ?_, ?_⟩
        · rw [h2.2.2.2.1]
          simp only [List.sum_cons]
          ring
        · rw [h2.2.2.2.2]
          simp [add_assoc]

/-- C6 (amended): a triggered, active falling_block moves down
`int(820*dt)` pixels per tick (820 px/s truncated to whole pixels; zero
for small dt) while its y stays ≤ HEIGHT+250; once its y exceeds
HEIGHT+250 it deactivates with a 1.5 s cooldown (already decremented by
the deactivating tick's dt); and from the inactive state, once the
accumulated dt reaches the remaining cooldown, it resets to
(base_x, base_y) with `triggered` cleared and `active = true`. -/

theorem C6_falling_block (ww : ℤ) (pr : Rect) (tr : Trap) (d : ℚ)
    (hk : tr.kind = "falling_block") :
    (tr.triggered = true → tr.active = TrapActive.on →
      tr.rect.y + pyInt (820 * d) ≤ HEIGHT + 250 →
      (trap_update ww pr d tr).1.rect.y = tr.rect.y + pyInt (820 * d) ∧
      (trap_update ww pr d tr).1.rect.x = tr.rect.x ∧
      (trap_update ww pr d tr).1.active = TrapActive.on ∧
      (trap_update ww pr d tr).1.triggered = true ∧
      (trap_update ww pr d tr).1.cooldown = tr.cooldown) ∧
    (tr.triggered = true → tr.active = TrapActive.on →
      tr.rect.y + pyInt (820 * d) > HEIGHT + 250 → 0 < (3/2 : ℚ) - d →
      (trap_update ww pr d tr).1.active = TrapActive.off ∧
      (trap_update ww pr d tr).1.cooldown = 3/2 - d) ∧
    (∀ ds : List ℚ, tr.active = TrapActive.off → 0 < tr.cooldown →
      (∀ x ∈ ds, 0 ≤ x) → tr.cooldown ≤ ds.sum →
      (runTrap ww pr tr ds).active = TrapActive.on ∧
      (runTrap ww pr tr ds).triggered = false ∧
      (runTrap ww pr tr ds).rect.x = tr.base_x ∧
      (runTrap ww pr tr ds).rect.y = tr.base_y) := by
  refine ⟨?_, ?_, ?_⟩
  · intro htr hact hy
    rw [fb_tick_fall ww pr d tr hk htr hact hy]
    exact ⟨rfl, rfl, hact, htr, rfl⟩
  · intro htr hact hy hcool
    rw [fb_tick_deactivate ww pr d tr hk htr hact hy]
    rw [if_neg (not_le.mpr hcool)]
    exact ⟨rfl, rfl⟩
  · intro ds hact hcd hds hsum
    have h := (fb_run_inactive ww pr ds tr hk hact hcd hds).1 hsum
    refine ⟨h.1, h.2.1, ?_, ?_⟩
    · rw [h.2.2.1]
    · rw [h.2.2.1]

/-- C6 counterexample: at dt = 1/1000 s the block does not move at all
(`int(820*dt) = 0` pixels), while the claimed exact displacement
`820*dt = 0.82` is nonzero — per-tick displacement is the truncated
`int(820*dt)`, not `820*dt`. -/

theorem C6_counterexample :
    (trap_update 10240 dummyRect (1/1000) fbTrap).1.rect.y = fbTrap.rect.y ∧
      820 * (1/1000 : ℚ) ≠ 0 := by
  constructor
  · have hy : fbTrap.rect.y + pyInt (820 * (1/1000 : ℚ)) ≤ HEIGHT + 250 := by
      norm_num [fbTrap, pyInt, HEIGHT]
    have h := fb_tick_fall 10240 dummyRect (1/1000) fbTrap rfl rfl rfl hy
    rw [h]
    norm_num [fbTrap, pyInt]
  · norm_num

/-- Witness for C6: at dt = 1/60 s the block falls `int(820/60) = 13`
pixels, from y = 210 to y = 223. -/

theorem C6_falling_block_witness :
    (trap_update 10240 dummyRect (1/60) fbTrap).1.rect.y = 223 := by
  have hy : fbTrap.rect.y + pyInt (820 * (1/60 : ℚ)) ≤ HEIGHT + 250 := by
    norm_num [fbTrap, pyInt, HEIGHT]
  have h := (C6_falling_block 10240 dummyRect fbTrap (1/60) rfl).1 rfl rfl hy
  rw [h.1]
  norm_num [fbTrap, pyInt]

/-! ## Lemmas: parse_bpm branch analysis -/

theorem mem_removeFirstDot {c : Char} (hc : c ≠ '.') {s : List Char}
    (h : c ∈ s) : c ∈ removeFirstDot s := by
  induction s with
  | nil => simp at h
  | cons a rest ih =>
    rcases List.mem_cons.mp h with rfl | h2
    · simp [removeFirstDot, hc]
    · by_cases ha : a = '.'
      · simpa [removeFirstDot, ha] using h2
      · simp only [removeFirstDot, if_neg ha, List.mem_cons]
        exact Or.inr (ih h2)

/-- A payload containing a colon can never pass the bare-number guard. -/

theorem colon_not_bare (s : List Char) (h : ':' ∈ s) :
    pyIsdigit (removeFirstDot s) = false := by
  have hmem : ':' ∈ removeFirstDot s := mem_removeFirstDot (by decide) h
  unfold pyIsdigit
  cases hall : (removeFirstDot s).all isDigitChar
  · simp
  · exfalso
    have h2 := List.all_eq_true.mp hall ':' hmem
    exact absurd h2 (by decide)

/-- C8 (amended): `parse_bpm` yields a value exactly for a bare number, a
colon-separated payload with a numeric token (rightmost wins), or a
brace-delimited JSON object giving a bpm value — where brace-delimited
payloads are parsed only as JSON: a colon token inside braces is never
used.  Everything else yields `None` (the embedding is total: no
exception escapes). -/

theorem C8_parse_bpm_encodings (m : List Char) :
    ((parse_bpm m).isSome = (isJsonBpmObject m ||
        (!braceDelimited m && (isColonNumeric m || isBareNumber m)))) ∧
    (braceDelimited m = true → parse_bpm m = jsonBpm (pyStrip m)) ∧
    (braceDelimited m = false → isColonNumeric m = true →
        parse_bpm m = rightmostNumericToken (pyStrip m)) ∧
    (braceDelimited m = false → isColonNumeric m = false →
        isBareNumber m = true →
        parse_bpm m = some (pyRound (parseNumToken (pyStrip m)))) := by
  by_cases hemp : pyStrip m = []
  · simp [parse_bpm, hemp, isJsonBpmObject, braceDelimited, isColonNumeric,
      isBareNumber, pyIsdigit, removeFirstDot]
  · by_cases hbr : (pyStrip m).head? = some '{' ∧ (pyStrip m).getLast? = some '}'
    · have hb : braceDelimited m = true := by
        simp [braceDelimited, hbr.1, hbr.2]
      have hp : parse_bpm m = jsonBpm (pyStrip m) := by
        simp [parse_bpm, hemp, hbr]
      refine ⟨?_, fun _ => hp, ?_, ?_⟩
      · rw [hp]
        simp [isJsonBpmObject, hb]
      · intro h
        simp [hb] at h
      · intro h
        simp [hb] at h
    · have hb : braceDelimited m = false := by
        simp only [braceDelimited, Bool.and_eq_false_iff, decide_eq_false_iff_not]
        tauto
      have hpb : parse_bpm m =
          (match (if ':' ∈ pyStrip m then rightmostNumericToken (pyStrip m)
                  else none) with
           | some v => some v
           | none =>
             if pyIsdigit (removeFirstDot (pyStrip m)) then
               some (pyRound (parseNumToken (pyStrip m)))
             else none) := by
        simp [parse_bpm, hemp, hbr]
      by_cases hcol : ':' ∈ pyStrip m
      · cases hrt : rightmostNumericToken (pyStrip m) with
        | some v =>
          have hcn : isColonNumeric m = true := by
            simp [isColonNumeric, hcol, hrt]
          have hp2 : parse_bpm m = some v := by
            rw [hpb]
            simp [hcol, hrt]
          refine ⟨?_, ?_, ?_, ?_⟩
          · rw [hp2]
            simp [isJsonBpmObject, hb, hcn]
          · intro h
            simp [hb] at h
          · intro _ _
            exact hp2
          · intro _ h
            simp [hcn] at h
        | none =>
          have hbare : pyIsdigit (removeFirstDot (pyStrip m)) = false :=
            colon_not_bare _ hcol
          have hcn : isColonNumeric m = false := by
            simp [isColonNumeric, hrt]
          have hp2 : parse_bpm m = none := by
            rw [hpb]
            simp [hcol, hrt, hbare]
          refine ⟨?_, ?_, ?_, ?_⟩
          · rw [hp2]
            simp [isJsonBpmObject, hb, hcn, isBareNumber, hbare]
          · intro h
            simp [hb] at h
          · intro _ h
            simp [hcn] at h
          · intro _ _ h
            simp [isBareNumber, hbare] at h
      · have hcn : isColonNumeric m = false := by
          simp [isColonNumeric, hcol]
        have hp2 : parse_bpm m =
            (if pyIsdigit (removeFirstDot (pyStrip m)) then
              some (pyRound (parseNumToken (pyStrip m)))
             else none) := by
          rw [hpb]
          simp [hcol]
        refine ⟨?_, ?_, ?_, ?_⟩
        · rw [hp2]
          by_cases hbare : pyIsdigit (removeFirstDot (pyStrip m)) = true
          · simp [hbare, isJsonBpmObject, hb, hcn, isBareNumber]
          · rw [Bool.not_eq_true] at hbare
            simp [hbare, isJsonBpmObject, hb, hcn, isBareNumber]
        · intro h
          simp [hb] at h
        · intro _ h
          simp [hcn] at h
        · intro _ _ h
          rw [hp2]
          simp only [isBareNumber] at h
          simp [h]

/-- C8 counterexample: `{a:82:b}` is a colon-separated string whose
rightmost numeric token is 82, yet `parse_bpm` returns `None`, because a
brace-delimited payload is handed to the JSON parser exclusively and
`{a:82:b}` is not valid JSON. -/

theorem C8_counterexample :
    parse_bpm cexMsg = none ∧ isColonNumeric cexMsg = true := by
  constructor
  · decide
  · decide

/-- Witness for C8: the JSON object payload yields bpm 82. -/

theorem C8_parse_bpm_encodings_witness :
    parse_bpm jsonMsg = some 82 ∧ isJsonBpmObject jsonMsg = true := by
  have hstrip : pyStrip jsonMsg = jsonMsg := rfl
  have h := (C8_parse_bpm_encodings jsonMsg).2.1 (by decide)
  have h2 : jsonBpm jsonMsg = some (pyRound ((82 : ℕ) : ℚ)) := rfl
  have h3 : pyRound ((82 : ℕ) : ℚ) = 82 := by norm_num [pyRound]
  constructor
  · rw [h, hstrip, h2, h3]
  · simp only [isJsonBpmObject, hstrip, h2, braceDelimited]
    decide

end HD
